import Mathlib

/-!
Verification of the slacker-bot chat relay (`src/bot_v4.py`).

The Python module keeps a per-user in-memory store (`UserData`) of the
selected provider, model and wizard state; message and callback handlers
mutate the store; `reply_message` dispatches free text to one of three
provider clients and chunks the reply; `retry_on_error` wraps the clients
with a bounded retry loop.  The definitions below are a shallow embedding
of those parts: Python `str` becomes `String` (code points, `List Char`
underneath), user ids become `Nat`, the three dictionaries of `UserData`
become functions `Nat → Option String`, and the handlers become pure state
transformers that also record the messages sent and the number of provider
client calls made.  Network I/O is represented by passing the stubbed
outcome of each call explicitly.
-/

namespace SlackerBot

/-- `DEFAULT_MODEL` constant of `bot_v4.py`. -/
def DEFAULT_MODEL : String := "deepseek-reasoner"

/-- `DEFAULT_PROVIDER` constant of `bot_v4.py`. -/
def DEFAULT_PROVIDER : String := "DeepSeek"

/-- `AVAILABLE_CHATGPT_MODELS` constant of `bot_v4.py`. -/
def AVAILABLE_CHATGPT_MODELS : List String :=
  ["gpt-4o-mini", "gpt-3.5-turbo", "gpt-4o"]

/-- `AVAILABLE_CLAUDE_MODELS` constant of `bot_v4.py`. -/
def AVAILABLE_CLAUDE_MODELS : List String :=
  ["claude-3-5-sonnet-20240620", "claude-3-7-sonnet-20250219", "claude-3-haiku-20240307"]

/-- `AVAILABLE_DEEPSEEK_MODELS` constant of `bot_v4.py`. -/
def AVAILABLE_DEEPSEEK_MODELS : List String :=
  ["deepseek-chat", "deepseek-coder", "deepseek-reasoner"]

/-- The provider labels offered by `/choose_model` and matched by the
`handle_provider_choice` message-handler filter
(`msg.text in ['DeepSeek', 'ChatGPT', 'Claude']`). -/
def PROVIDER_LABELS : List String := ["DeepSeek", "ChatGPT", "Claude"]

namespace UserState

/-- `UserState.NORMAL` of `bot_v4.py`. -/
def NORMAL : String := "normal"

/-- `UserState.CHOOSING_PROVIDER` of `bot_v4.py`. -/
def CHOOSING_PROVIDER : String := "choosing_provider"

/-- `UserState.CHOOSING_MODEL` of `bot_v4.py` (its value is the string
`choosing_chatgpt_model`). -/
def CHOOSING_MODEL : String := "choosing_chatgpt_model"

/-- `UserState.CHOOSING_CLAUDE_MODEL` of `bot_v4.py`. -/
def CHOOSING_CLAUDE_MODEL : String := "choosing_claude_model"

/-- `UserState.CHOOSING_DEEPSEEK_MODEL` of `bot_v4.py`. -/
def CHOOSING_DEEPSEEK_MODEL : String := "choosing_deepseek_model"

end UserState

/-- The `UserData` store of `bot_v4.py`: three dictionaries keyed by the
user id, holding the selected model, the wizard state and the selected
provider.  A Python `dict` is embedded as a function to `Option String`
(`none` = key absent). -/
structure UserData where
  models : Nat → Option String
  states : Nat → Option String
  providers : Nat → Option String

namespace UserData

/-- The empty store created by `UserData.__init__`. -/
def init : UserData := ⟨fun _ => none, fun _ => none, fun _ => none⟩

/-- `UserData.get_model`: stored model or `DEFAULT_MODEL`. -/
def get_model (d : UserData) (user_id : Nat) : String :=
  (d.models user_id).getD DEFAULT_MODEL

/-- `UserData.set_model`: `self.models[user_id] = model`. -/
def set_model (d : UserData) (user_id : Nat) (model : String) : UserData :=
  { d with models := fun w => if w = user_id then some model else d.models w }

/-- `UserData.get_state`: stored state or `UserState.NORMAL`. -/
def get_state (d : UserData) (user_id : Nat) : String :=
  (d.states user_id).getD UserState.NORMAL

/-- `UserData.set_state`: `self.states[user_id] = state`. -/
def set_state (d : UserData) (user_id : Nat) (state : String) : UserData :=
  { d with states := fun w => if w = user_id then some state else d.states w }

/-- `UserData.reset_state`: writes `NORMAL` only when the key is present
(`if user_id in self.states`). -/
def reset_state (d : UserData) (user_id : Nat) : UserData :=
  match d.states user_id with
  | some _ =>
      { d with states := fun w => if w = user_id then some UserState.NORMAL else d.states w }
  | none => d

/-- `UserData.get_provider`: stored provider or `DEFAULT_PROVIDER`. -/
def get_provider (d : UserData) (user_id : Nat) : String :=
  (d.providers user_id).getD DEFAULT_PROVIDER

/-- `UserData.set_provider`: `self.providers[user_id] = provider`. -/
def set_provider (d : UserData) (user_id : Nat) (provider : String) : UserData :=
  { d with providers := fun w => if w = user_id then some provider else d.providers w }

end UserData

/-- The provider-to-model-list mapping used by `create_model_keyboard`
(and by the `/help` text): `DeepSeek`, `ChatGPT` and `Claude` map to their
`AVAILABLE_*` lists, anything else to the empty list. -/
def create_model_keyboard_models : String → List String
  | "DeepSeek" => AVAILABLE_DEEPSEEK_MODELS
  | "ChatGPT" => AVAILABLE_CHATGPT_MODELS
  | "Claude" => AVAILABLE_CLAUDE_MODELS
  | _ => []

/-- Python `str.split(sep)` for a one-character separator, over the code
points of the string: `"a_b".split("_") = ["a","b"]`, `"".split("_") = [""]`,
`"_x".split("_") = ["", "x"]`. -/
def pySplit (sep : Char) : List Char → List (List Char)
  | [] => [[]]
  | c :: cs =>
      if c = sep then [] :: pySplit sep cs
      else
        match pySplit sep cs with
        | [] => [[c]]
        | w :: ws => (c :: w) :: ws

/-- Python `sep.join(parts)` for a one-character separator. -/
def pyJoin (sep : Char) (parts : List (List Char)) : List Char :=
  List.intercalate [sep] parts

/-- `callback_provider_selected` (state effect): the provider is
`call.data.split("_")[1]` and is stored with `set_provider`; nothing else
in the store is written. -/
def callback_provider_selected (d : UserData) (user_id : Nat) (data : String) : UserData :=
  let provider := String.mk ((pySplit '_' data.data).getD 1 [])
  d.set_provider user_id provider

/-- `callback_model_selected` (state effect): the model name is
`"_".join(parts[2:])` of `call.data.split("_")` and is stored with
`set_model`; nothing else in the store is written. -/
def callback_model_selected (d : UserData) (user_id : Nat) (data : String) : UserData :=
  let parts := pySplit '_' data.data
  let model_name := String.mk (pyJoin '_' (parts.drop 2))
  d.set_model user_id model_name

/-- `callback_quick_model_selected` (state effect): provider is
`parts[2]`, model is `"_".join(parts[3:])`; the handler calls
`set_provider` then `set_model` and never touches the wizard state. -/
def callback_quick_model_selected (d : UserData) (user_id : Nat) (data : String) : UserData :=
  let parts := pySplit '_' data.data
  let provider := String.mk (parts.getD 2 [])
  let model_name := String.mk (pyJoin '_' (parts.drop 3))
  (d.set_provider user_id provider).set_model user_id model_name

/-- `choose_model` command handler (state effect): sets the wizard state
to `CHOOSING_PROVIDER`. -/
def choose_model (d : UserData) (user_id : Nat) : UserData :=
  d.set_state user_id UserState.CHOOSING_PROVIDER

/-- The chunk slicing loop of `reply_message`:
`for i in range(0, len(reply), 4096): reply[i:i+4096]`.
The fuel argument is instantiated with the length of the list; since each
iteration consumes at least one code point of a non-empty list, that fuel
always suffices, and the structural recursion on the fuel keeps the
definition kernel-evaluable. -/
def chunksGo : Nat → List Char → List (List Char)
  | 0, _ => []
  | _ + 1, [] => []
  | k + 1, c :: cs => ((c :: cs).take 4096) :: chunksGo k ((c :: cs).drop 4096)

/-- The send logic at the end of `reply_message`: a reply longer than 4096
code points is sent slice by slice, otherwise it is sent as one message. -/
def chunkMessage (reply : String) : List String :=
  if 4096 < reply.length then
    (chunksGo reply.data.length reply.data).map String.mk
  else [reply]

/-- The corrective prompt `reply_message` sends while a wizard is active. -/
def wizard_busy_msg : String :=
  "Пожалуйста, сначала заверши выбор модели через меню или используй /clear_keyboard для сброса."

/-- Observable outcome of one text-message handler run: the store after the
handler, the number of provider-client calls it made, and the texts sent to
the chat. -/
structure HandlerOut where
  data : UserData
  calls : Nat
  sent : List String

/-- `handle_provider_choice`: only acts when the wizard state is
`CHOOSING_PROVIDER`; otherwise it sends a corrective message and leaves the
store untouched.  On a match it stores the provider and moves to the
provider's model-choice state (`ChatGPT`/`Claude` checked in order, any
other label — here only `DeepSeek` reaches this handler — falls to the
DeepSeek branch). -/
def handle_provider_choice (d : UserData) (user_id : Nat) (t : String) : HandlerOut :=
  if d.get_state user_id ≠ UserState.CHOOSING_PROVIDER then
    ⟨d, 0, ["Чтобы выбрать провайдера, используйте команду /choose_model"]⟩
  else
    let d1 := d.set_provider user_id t
    if t = "ChatGPT" then
      ⟨d1.set_state user_id UserState.CHOOSING_MODEL, 0, ["Теперь выбери модель ChatGPT:"]⟩
    else if t = "Claude" then
      ⟨d1.set_state user_id UserState.CHOOSING_CLAUDE_MODEL, 0, ["Теперь выбери модель Claude:"]⟩
    else
      ⟨d1.set_state user_id UserState.CHOOSING_DEEPSEEK_MODEL, 0, ["Теперь выбери модель DeepSeek:"]⟩

/-- `handle_model_choice` (ChatGPT models): rejects unless the wizard state
is `CHOOSING_MODEL`; on a match stores the model and resets the state. -/
def handle_model_choice (d : UserData) (user_id : Nat) (t : String) : HandlerOut :=
  if d.get_state user_id ≠ UserState.CHOOSING_MODEL then
    ⟨d, 0, ["Для выбора модели сначала выберите провайдера через /choose_model"]⟩
  else
    ⟨(d.set_model user_id t).reset_state user_id, 0, ["Выбрана модель " ++ t ++ "!"]⟩

/-- `handle_claude_model_choice` (Claude models): rejects unless the wizard
state is `CHOOSING_CLAUDE_MODEL`; on a match stores the model and resets
the state. -/
def handle_claude_model_choice (d : UserData) (user_id : Nat) (t : String) : HandlerOut :=
  if d.get_state user_id ≠ UserState.CHOOSING_CLAUDE_MODEL then
    ⟨d, 0, ["Для выбора модели сначала выберите провайдера через /choose_model"]⟩
  else
    ⟨(d.set_model user_id t).reset_state user_id, 0, ["Выбрана модель " ++ t ++ "!"]⟩

/-- `handle_deepseek_model_choice` (DeepSeek models): rejects unless the
wizard state is `CHOOSING_DEEPSEEK_MODEL`; on a match stores the model and
resets the state. -/
def handle_deepseek_model_choice (d : UserData) (user_id : Nat) (t : String) : HandlerOut :=
  if d.get_state user_id ≠ UserState.CHOOSING_DEEPSEEK_MODEL then
    ⟨d, 0, ["Для выбора модели сначала выберите провайдера через /choose_model"]⟩
  else
    ⟨(d.set_model user_id t).reset_state user_id, 0, ["Выбрана модель " ++ t ++ "!"]⟩

/-- `reply_message`, the catch-all text handler.  The provider client is a
stub `query : provider → model → text → reply`; the handler counts how many
times it is called.  While the wizard state is not `NORMAL` the handler
sends the corrective prompt, makes no provider call and leaves the store
untouched; otherwise it resolves provider and model from the store,
dispatches (`DeepSeek` → `query_deepseek`, `Claude` → `query_claude`,
anything else → `query_chatgpt`) and sends the chunked reply. -/
def reply_message (query : String → String → String → String)
    (d : UserData) (user_id : Nat) (t : String) : HandlerOut :=
  if d.get_state user_id ≠ UserState.NORMAL then
    ⟨d, 0, [wizard_busy_msg]⟩
  else
    let provider := d.get_provider user_id
    let model_choice := d.get_model user_id
    let reply := query provider model_choice t
    ⟨d, 1, chunkMessage reply⟩

/-- Routing of one non-command text message through `bot_v4.py`'s
message-handler filters, in registration order: the provider labels, then
the ChatGPT / Claude / DeepSeek model lists, then the catch-all
`reply_message`. -/
def handle_text (query : String → String → String → String)
    (d : UserData) (user_id : Nat) (t : String) : HandlerOut :=
  if t ∈ PROVIDER_LABELS then handle_provider_choice d user_id t
  else if t ∈ AVAILABLE_CHATGPT_MODELS then handle_model_choice d user_id t
  else if t ∈ AVAILABLE_CLAUDE_MODELS then handle_claude_model_choice d user_id t
  else if t ∈ AVAILABLE_DEEPSEEK_MODELS then handle_deepseek_model_choice d user_id t
  else reply_message query d user_id t

/-- Python exception classes a provider-client stub can raise, each
carrying its `str(e)` rendering.  The first three are the subclasses of
`requests.exceptions.RequestException` relevant here: in the `requests`
library `HTTPError`, `ConnectionError` and `Timeout` all derive from
`RequestException`; `KeyError`/`IndexError` and other exceptions do not. -/
inductive PyExc where
  | httpError (s : String)
  | connectionError (s : String)
  | timeout (s : String)
  | keyError (s : String)
  | indexError (s : String)
  | otherExc (s : String)
  deriving DecidableEq

/-- Whether an exception matches the
`except (requests.exceptions.RequestException, requests.exceptions.Timeout)`
clause of `retry_on_error`: exactly the `RequestException` hierarchy,
which includes `HTTPError` (raised by `raise_for_status` on a non-2xx
response), `ConnectionError` and `Timeout`. -/
def isRequestExceptionClass : PyExc → Bool
  | .httpError _ => true
  | .connectionError _ => true
  | .timeout _ => true
  | _ => false

/-- Network-class failures in the spec's taxonomy: connection errors and
timeouts. -/
def isNetworkClass : PyExc → Bool
  | .connectionError _ => true
  | .timeout _ => true
  | _ => false

/-- Outcome of one Python call: a returned value or a raised exception. -/
inductive PyOutcome (α : Type) where
  | ok (a : α)
  | exc (e : PyExc)
  deriving DecidableEq

/-- The `while retries < max_retries` loop of `retry_on_error` followed by
the final unguarded call.  The wrapped function is a stub indexed by the
number of calls made so far; the result pairs the final outcome (the
propagated exception, unconverted, when the last call raises) with the
total number of invocations of the stub. -/
def retryGo (f : Nat → PyOutcome α) : Nat → Nat → PyOutcome α × Nat
  | 0, calls => (f calls, calls + 1)
  | fuel + 1, calls =>
      match f calls with
      | .ok a => (.ok a, calls + 1)
      | .exc e =>
          if isRequestExceptionClass e then retryGo f fuel (calls + 1)
          else (.exc e, calls + 1)

/-- `retry_on_error` of `bot_v4.py` (default `max_retries = 3`): run the
guarded loop `max_retries` times, then one final unguarded call. -/
def retry_on_error (f : Nat → PyOutcome α) (max_retries : Nat := 3) : PyOutcome α × Nat :=
  retryGo f max_retries 0

/-- `str(e)` of an embedded Python exception. -/
def PyExc.str : PyExc → String
  | .httpError s => s
  | .connectionError s => s
  | .timeout s => s
  | .keyError s => s
  | .indexError s => s
  | .otherExc s => s

/-- Whether an exception matches the `except (KeyError, IndexError)` clause
of `query_deepseek`. -/
def isKeyOrIndexError : PyExc → Bool
  | .keyError _ => true
  | .indexError _ => true
  | _ => false

/-- One message object of a chat-completion response body
(`{"message": {"content": ...}}` for DeepSeek, `choice.message` for
OpenAI). -/
structure ChatMessage where
  content : String

/-- One element of the `choices` array of a completion response. -/
structure ChatChoice where
  message : ChatMessage

/-- A parsed chat-completion response body: its `choices` array. -/
structure ChatCompletion where
  choices : List ChatChoice

/-- One content block of an Anthropic messages response. -/
structure ClaudeBlock where
  text : String

/-- A parsed Anthropic messages response: its `content` array. -/
structure ClaudeMessage where
  content : List ClaudeBlock

/-- Python `str.strip()` over the code points of a string (drops leading
and trailing whitespace). -/
def pyStrip (s : String) : String :=
  String.mk (((s.data.dropWhile Char.isWhitespace).reverse.dropWhile Char.isWhitespace).reverse)

/-- `query_deepseek`, as a function of the stubbed outcome of the HTTP call
(`requests.post` + `raise_for_status` + `json()`).  A `RequestException`
(network or HTTP error) is converted to the DeepSeek request-error string
with `str(e)` appended and a `KeyError`/`IndexError` to the DeepSeek
format-error string — an empty `choices` array raises `IndexError` at
`["choices"][0]`, hence also yields the format-error string.  On success
the handler returns `["choices"][0]["message"]["content"]` as is, with no
trimming.  Any other exception class propagates uncaught. -/
def query_deepseek (r : PyOutcome ChatCompletion) : PyOutcome String :=
  match r with
  | .ok body =>
      match body.choices with
      | [] => .ok "Ошибка в формате ответа от DeepSeek"
      | c :: _ => .ok c.message.content
  | .exc e =>
      if isRequestExceptionClass e then .ok ("Ошибка при обращении к DeepSeek: " ++ e.str)
      else if isKeyOrIndexError e then .ok "Ошибка в формате ответа от DeepSeek"
      else .exc e

/-- `query_chatgpt`, as a function of the stubbed outcome of the OpenAI
client call.  Every exception is caught (`except Exception`) and rendered
with the model name and `str(e)`; an empty `choices` array raises
`IndexError("list index out of range")` inside the `try`, which that same
clause catches.  On success the handler returns
`response.choices[0].message.content.strip()` — whitespace-trimmed. -/
def query_chatgpt (model_name : String) (r : PyOutcome ChatCompletion) : String :=
  match r with
  | .ok body =>
      match body.choices with
      | [] => "Ошибка при обращении к модели " ++ model_name ++ ": list index out of range"
      | c :: _ => pyStrip c.message.content
  | .exc e => "Ошибка при обращении к модели " ++ model_name ++ ": " ++ e.str

/-- `query_claude`, as a function of the stubbed outcome of the Anthropic
client call.  Every exception is caught (`except Exception`) and rendered
with the model name and `str(e)`; an empty `content` array raises
`IndexError` inside the `try`, which that clause catches.  On success the
handler returns `response.content[0].text` as is, with no trimming. -/
def query_claude (model_name : String) (r : PyOutcome ClaudeMessage) : String :=
  match r with
  | .ok body =>
      match body.content with
      | [] => "Ошибка при обращении к модели " ++ model_name ++ ": list index out of range"
      | b :: _ => b.text
  | .exc e => "Ошибка при обращении к модели " ++ model_name ++ ": " ++ e.str

/-- The model lists a wizard model-choice state accepts, mirroring the
guard of the three model-choice handlers: `CHOOSING_MODEL` accepts the
ChatGPT list, `CHOOSING_CLAUDE_MODEL` the Claude list,
`CHOOSING_DEEPSEEK_MODEL` the DeepSeek list, and no other state accepts
model input. -/
def stateModels (state : String) : Option (List String) :=
  if state = UserState.CHOOSING_MODEL then some AVAILABLE_CHATGPT_MODELS
  else if state = UserState.CHOOSING_CLAUDE_MODEL then some AVAILABLE_CLAUDE_MODELS
  else if state = UserState.CHOOSING_DEEPSEEK_MODEL then some AVAILABLE_DEEPSEEK_MODELS
  else none

/-- Length-level shadow of `chunksGo`, used to compute chunk counts and
chunk lengths without building the character lists. -/
def chunkLens : Nat → Nat → List Nat
  | 0, _ => []
  | _ + 1, 0 => []
  | k + 1, n + 1 => min 4096 (n + 1) :: chunkLens k (n + 1 - 4096)

theorem chunksGo_flatten (k : Nat) :
    ∀ l : List Char, l.length ≤ k → (chunksGo k l).flatten = l := by
  induction k with
  | zero =>
      intro l hl
      have : l = [] := List.length_eq_zero.mp (Nat.le_zero.mp hl)
      subst this; simp [chunksGo]
  | succ k ih =>
      intro l hl
      cases l with
      | nil => simp [chunksGo]
      | cons c cs =>
          have hd : ((c :: cs).drop 4096).length ≤ k := by
            simp only [List.length_drop, List.length_cons] at *
            omega
          have he : chunksGo (k + 1) (c :: cs)
              = (c :: cs).take 4096 :: chunksGo k ((c :: cs).drop 4096) := rfl
          rw [he, List.flatten_cons, ih _ hd, List.take_append_drop]

theorem chunksGo_mem_le (k : Nat) :
    ∀ (l : List Char) (c : List Char), c ∈ chunksGo k l → c.length ≤ 4096 := by
  induction k with
  | zero => intro l c hc; simp [chunksGo] at hc
  | succ k ih =>
      intro l c hc
      cases l with
      | nil => simp [chunksGo] at hc
      | cons a as =>
          have he : chunksGo (k + 1) (a :: as)
              = (a :: as).take 4096 :: chunksGo k ((a :: as).drop 4096) := rfl
          rw [he, List.mem_cons] at hc
          rcases hc with h | h
          · subst h
            simp [List.length_take]
          · exact ih _ _ h

theorem chunksGo_map_length (k : Nat) :
    ∀ l : List Char, (chunksGo k l).map List.length = chunkLens k l.length := by
  induction k with
  | zero => intro l; simp [chunksGo, chunkLens]
  | succ k ih =>
      intro l
      cases l with
      | nil => simp [chunksGo, chunkLens]
      | cons c cs =>
          have he : chunksGo (k + 1) (c :: cs)
              = (c :: cs).take 4096 :: chunksGo k ((c :: cs).drop 4096) := rfl
          rw [he, List.map_cons, ih]
          simp [chunkLens, List.length_take, List.length_drop]
          omega

theorem chunkMessage_flatten (s : String) : String.join (chunkMessage s) = s := by
  unfold chunkMessage
  split
  · rw [String.join_eq]
    have hdata : ((chunksGo s.data.length s.data).map String.mk).map String.data
        = chunksGo s.data.length s.data := by
      rw [List.map_map]
      exact List.map_id _
    rw [hdata, chunksGo_flatten _ _ (Nat.le_refl _)]
  · simp [String.join_eq]

theorem chunkMessage_le (s : String) : ∀ c ∈ chunkMessage s, c.length ≤ 4096 := by
  intro c hc
  unfold chunkMessage at hc
  split at hc
  · rw [List.mem_map] at hc
    obtain ⟨l, hl, rfl⟩ := hc
    exact chunksGo_mem_le _ _ _ hl
  · rename_i h
    rw [List.mem_singleton] at hc
    subst hc
    omega

theorem chunkMessage_map_length (s : String) (h : 4096 < s.length) :
    (chunkMessage s).map String.length = chunkLens s.length s.length := by
  unfold chunkMessage
  rw [if_pos h, List.map_map]
  have hc : String.length ∘ String.mk = List.length := funext fun l => rfl
  rw [hc, chunksGo_map_length]
  cases s
  rfl

theorem network_is_requestException (e : PyExc) (h : isNetworkClass e = true) :
    isRequestExceptionClass e = true := by
  cases e <;> simp_all [isNetworkClass, isRequestExceptionClass]

/-- C1: the claimed invariant — after any sequence of wizard operations the
stored model belongs to the stored provider's model set, the wizard writing
both fields together or not at all — fails on the code.  Two concrete
wizard-operation sequences break it: pressing the inline provider button
`provider_ChatGPT` on a fresh store writes the provider alone, leaving the
default model `deepseek-reasoner` paired with provider `ChatGPT`; and a
stale inline model button `chatgpt_model_gpt-4o` pressed after a DeepSeek
quick-select writes the model alone, pairing `gpt-4o` with provider
`DeepSeek`.  Both partial updates leave a model outside the stored
provider's model set. -/
theorem wizard_mismatched_pair_reachable :
    ((callback_provider_selected UserData.init 1 "provider_ChatGPT").get_provider 1 = "ChatGPT"
      ∧ (callback_provider_selected UserData.init 1 "provider_ChatGPT").get_model 1
          = DEFAULT_MODEL
      ∧ DEFAULT_MODEL ∉ create_model_keyboard_models "ChatGPT")
    ∧ ((callback_model_selected
          (callback_quick_model_selected UserData.init 2 "quick_model_DeepSeek_deepseek-reasoner")
          2 "chatgpt_model_gpt-4o").get_provider 2 = "DeepSeek"
      ∧ (callback_model_selected
          (callback_quick_model_selected UserData.init 2 "quick_model_DeepSeek_deepseek-reasoner")
          2 "chatgpt_model_gpt-4o").get_model 2 = "gpt-4o"
      ∧ "gpt-4o" ∉ create_model_keyboard_models "DeepSeek") := by
  decide

/-- C2: the quick-select handler, evaluated on an invalid `(provider,
model)` pair from a non-idle state: the code accepts the mismatched pair
`(ChatGPT, claude-3-haiku-20240307)` — it stores both fields with no
membership validation — and never writes the wizard state, which stays
`CHOOSING_PROVIDER` instead of becoming `NORMAL` (the claim requires an
invalid pair to be rejected with no state change and `setState(Idle)` on
acceptance). -/
theorem quick_select_unvalidated_and_stateless :
    (callback_quick_model_selected (UserData.init.set_state 1 UserState.CHOOSING_PROVIDER) 1
        "quick_model_ChatGPT_claude-3-haiku-20240307").get_provider 1 = "ChatGPT"
    ∧ (callback_quick_model_selected (UserData.init.set_state 1 UserState.CHOOSING_PROVIDER) 1
        "quick_model_ChatGPT_claude-3-haiku-20240307").get_model 1 = "claude-3-haiku-20240307"
    ∧ "claude-3-haiku-20240307" ∉ create_model_keyboard_models "ChatGPT"
    ∧ (callback_quick_model_selected (UserData.init.set_state 1 UserState.CHOOSING_PROVIDER) 1
        "quick_model_ChatGPT_claude-3-haiku-20240307").get_state 1
      = (UserData.init.set_state 1 UserState.CHOOSING_PROVIDER).get_state 1
    ∧ (callback_quick_model_selected (UserData.init.set_state 1 UserState.CHOOSING_PROVIDER) 1
        "quick_model_ChatGPT_claude-3-haiku-20240307").get_state 1 ≠ UserState.NORMAL := by
  decide

/-- C3 counterexample: a stub that always raises an HTTP-class error
(`requests.HTTPError`, a subclass of `RequestException`) is NOT invoked
exactly once: the retry wrapper catches it in the guarded loop, retries,
and invokes the stub 4 times in total. -/
theorem retry_http_error_retried_counterexample :
    (retry_on_error (fun _ => PyOutcome.exc (PyExc.httpError "500")) 3 : PyOutcome String × Nat)
      = (.exc (PyExc.httpError "500"), 4)
    ∧ (4 : Nat) ≠ 1 := by
  constructor
  · rfl
  · decide

/-- C3 amended: the retry wrapper's guard is the `RequestException`
hierarchy, which includes `HTTPError`; so HTTP-class failures ARE retried
like network failures, and only a stub raising an error outside that
hierarchy (e.g. the parse-error classes `KeyError`/`IndexError`) is invoked
exactly once, its failure propagating immediately with no retry. -/
theorem retry_non_request_exception_single_call (f : Nat → PyOutcome String) (e : PyExc)
    (hf : f 0 = .exc e) (he : isRequestExceptionClass e = false) :
    retry_on_error f 3 = (.exc e, 1) := by
  simp [retry_on_error, retryGo, hf, he]

/-- Witness for C3 amended: a stub always raising `KeyError` is invoked
exactly once and the error propagates. -/
theorem retry_non_request_exception_single_call_witness :
    (fun _ : Nat => (PyOutcome.exc (PyExc.keyError "missing") : PyOutcome String)) 0
        = PyOutcome.exc (PyExc.keyError "missing")
    ∧ isRequestExceptionClass (PyExc.keyError "missing") = false
    ∧ retry_on_error (fun _ => (PyOutcome.exc (PyExc.keyError "missing") : PyOutcome String)) 3
        = (PyOutcome.exc (PyExc.keyError "missing"), 1) :=
  ⟨rfl, rfl, retry_non_request_exception_single_call _ _ rfl rfl⟩

/-- C4: with the retry count at its configured value 3, a stub raising
network-class errors on its first two calls and succeeding on the third
makes the wrapper return the success with exactly 3 invocations; and a stub
raising network-class errors on every call exhausts the 3 guarded attempts
and gets exactly one additional final unguarded call — 4 = N+1 invocations
in total — whose raw outcome (here the propagated, unconverted exception
`f 3`) is the final result. -/
theorem retry_network_then_final_unguarded :
    (∀ (f : Nat → PyOutcome String) (e0 e1 : PyExc) (v : String),
        f 0 = .exc e0 → isNetworkClass e0 = true →
        f 1 = .exc e1 → isNetworkClass e1 = true →
        f 2 = .ok v →
        retry_on_error f 3 = (.ok v, 3))
    ∧ ∀ (f : Nat → PyOutcome String),
        (∀ n, ∃ e, f n = .exc e ∧ isNetworkClass e = true) →
        retry_on_error f 3 = (f 3, 4) := by
  constructor
  · intro f e0 e1 v h0 hn0 h1 hn1 h2
    have c0 := network_is_requestException e0 hn0
    have c1 := network_is_requestException e1 hn1
    simp [retry_on_error, retryGo, h0, h1, h2, c0, c1]
  · intro f h
    obtain ⟨e0, h0, hn0⟩ := h 0
    obtain ⟨e1, h1, hn1⟩ := h 1
    obtain ⟨e2, h2, hn2⟩ := h 2
    simp [retry_on_error, retryGo, h0, h1, h2,
      network_is_requestException e0 hn0, network_is_requestException e1 hn1,
      network_is_requestException e2 hn2]

/-- Witness for C4: a stub timing out twice then succeeding is invoked 3
times and yields the success; an always-failing stub is invoked 4 times
and the final call's exception is the result. -/
theorem retry_network_then_final_unguarded_witness :
    retry_on_error (fun n => if n < 2 then PyOutcome.exc (PyExc.timeout "t") else PyOutcome.ok "v") 3
      = (PyOutcome.ok "v", 3)
    ∧ retry_on_error (fun _ => (PyOutcome.exc (PyExc.connectionError "c") : PyOutcome String)) 3
      = (PyOutcome.exc (PyExc.connectionError "c"), 4) :=
  ⟨retry_network_then_final_unguarded.1 _ (PyExc.timeout "t") (PyExc.timeout "t") "v"
      rfl rfl rfl rfl rfl,
   retry_network_then_final_unguarded.2 _ (fun _ => ⟨PyExc.connectionError "c", rfl, rfl⟩)⟩

/-- C5: the dispatcher's chunking splits every reply into ordered segments
of length at most 4096 whose in-order concatenation reproduces the reply
exactly; a reply of 9000 characters yields exactly 3 chunks of lengths
4096, 4096 and 808 in that order. -/
theorem chunking_reproduces_reply :
    (∀ s : String, (∀ c ∈ chunkMessage s, c.length ≤ 4096) ∧ String.join (chunkMessage s) = s)
    ∧ (chunkMessage (String.mk (List.replicate 9000 'a'))).map String.length
        = [4096, 4096, 808] := by
  constructor
  · intro s
    exact ⟨chunkMessage_le s, chunkMessage_flatten s⟩
  · have hlen : (String.mk (List.replicate 9000 'a')).length = 9000 := by
      show (List.replicate 9000 'a').length = 9000
      rw [List.length_replicate]
    rw [chunkMessage_map_length _ (by rw [hlen]; omega), hlen]
    decide

/-- Witness for C5: the bound and the concatenation identity evaluated on a
concrete short reply. -/
theorem chunking_reproduces_reply_witness :
    "ab" ∈ chunkMessage "ab" ∧ "ab".length ≤ 4096 ∧ String.join (chunkMessage "ab") = "ab" :=
  ⟨by decide, (chunking_reproduces_reply.1 "ab").1 "ab" (by decide),
   (chunking_reproduces_reply.1 "ab").2⟩

/-- C6: while a user's wizard state is not `NORMAL`, a free-text message
matching no provider label and no model label is answered by the corrective
prompt, makes zero provider-client calls and leaves the store (hence the
wizard state) unchanged. -/
theorem wizard_active_suspends_dispatch (query : String → String → String → String)
    (d : UserData) (u : Nat) (t : String)
    (hstate : d.get_state u ≠ UserState.NORMAL)
    (hp : t ∉ PROVIDER_LABELS)
    (hg : t ∉ AVAILABLE_CHATGPT_MODELS)
    (hc : t ∉ AVAILABLE_CLAUDE_MODELS)
    (hdk : t ∉ AVAILABLE_DEEPSEEK_MODELS) :
    handle_text query d u t = ⟨d, 0, [wizard_busy_msg]⟩ := by
  simp [handle_text, hp, hg, hc, hdk, reply_message, hstate]

/-- Witness for C6: a user mid-wizard sending `hello` gets the corrective
prompt, no provider call, no state change. -/
theorem wizard_active_suspends_dispatch_witness :
    let d := UserData.init.set_state 1 UserState.CHOOSING_PROVIDER
    d.get_state 1 ≠ UserState.NORMAL
    ∧ handle_text (fun _ _ _ => "stub") d 1 "hello" = ⟨d, 0, [wizard_busy_msg]⟩ :=
  ⟨by decide, wizard_active_suspends_dispatch _ _ 1 "hello"
      (by decide) (by decide) (by decide) (by decide) (by decide)⟩

/-- C7: in any model-awaiting state (for provider `p`, whose model set is
`stateModels` of that state), submitting any text outside that model set is
rejected with no transition — the store, hence state, provider and model,
is returned unchanged; and choosing `Claude` while awaiting a provider
stores provider `Claude` and moves the state to `CHOOSING_CLAUDE_MODEL`. -/
theorem awaiting_model_rejects_invalid :
    (∀ (query : String → String → String → String) (d : UserData) (u : Nat)
        (t : String) (ms : List String),
        stateModels (d.get_state u) = some ms → t ∉ ms →
        (handle_text query d u t).data = d)
    ∧ ∀ (query : String → String → String → String) (d : UserData) (u : Nat),
        d.get_state u = UserState.CHOOSING_PROVIDER →
        (handle_text query d u "Claude").data.get_provider u = "Claude"
        ∧ (handle_text query d u "Claude").data.get_state u
            = UserState.CHOOSING_CLAUDE_MODEL := by
  constructor
  · intro query d u t ms hsm hms
    unfold stateModels at hsm
    split_ifs at hsm with h1 h2 h3
    all_goals injection hsm with hmse
    all_goals subst hmse
    all_goals simp only [handle_text, handle_provider_choice, handle_model_choice,
      handle_claude_model_choice, handle_deepseek_model_choice, reply_message, h1]
    all_goals split_ifs <;> simp_all +decide [UserState.CHOOSING_MODEL,
      UserState.CHOOSING_PROVIDER, UserState.NORMAL, UserState.CHOOSING_CLAUDE_MODEL,
      UserState.CHOOSING_DEEPSEEK_MODEL]
  · intro query d u hst
    have hh : handle_text query d u "Claude"
        = ⟨(d.set_provider u "Claude").set_state u UserState.CHOOSING_CLAUDE_MODEL, 0,
            ["Теперь выбери модель Claude:"]⟩ := by
      simp +decide [handle_text, PROVIDER_LABELS, handle_provider_choice, hst]
    rw [hh]
    simp [UserData.get_provider, UserData.get_state, UserData.set_provider, UserData.set_state]

/-- Witness for C7: the concrete scenario — `Claude` chosen while awaiting
a provider, then the ChatGPT model `gpt-4o` (not a Claude model) submitted
and rejected with the store unchanged. -/
theorem awaiting_model_rejects_invalid_witness :
    let q : String → String → String → String := fun _ _ _ => "stub"
    let d1 := UserData.init.set_state 1 UserState.CHOOSING_PROVIDER
    let d2 := (handle_text q d1 1 "Claude").data
    (d2.get_provider 1 = "Claude" ∧ d2.get_state 1 = UserState.CHOOSING_CLAUDE_MODEL)
    ∧ stateModels (d2.get_state 1) = some AVAILABLE_CLAUDE_MODELS
    ∧ "gpt-4o" ∉ AVAILABLE_CLAUDE_MODELS
    ∧ (handle_text q d2 1 "gpt-4o").data = d2 :=
  ⟨awaiting_model_rejects_invalid.2 _ _ 1 (by decide), by decide, by decide,
   awaiting_model_rejects_invalid.1 _ _ 1 "gpt-4o" AVAILABLE_CLAUDE_MODELS
      (by decide) (by decide)⟩

/-- C8 counterexample: the DeepSeek and Claude clients return the first
completion's text content as is — for the content `" hi "` the returned
value still carries its surrounding whitespace, so it differs from the
whitespace-trimmed value the claim requires for every client. -/
theorem deepseek_claude_untrimmed_counterexample :
    query_deepseek (PyOutcome.ok ⟨[⟨⟨" hi "⟩⟩]⟩) = PyOutcome.ok " hi "
    ∧ query_claude "claude-3-haiku-20240307" (PyOutcome.ok ⟨[⟨" hi "⟩]⟩) = " hi "
    ∧ pyStrip " hi " ≠ " hi " :=
  ⟨rfl, rfl, by decide⟩

/-- C8 amended: on a successful completion response each client returns the
first completion's text content, but only the ChatGPT client trims
surrounding whitespace (`.strip()`); the DeepSeek and Claude clients return
the content untrimmed. -/
theorem provider_clients_first_completion (m : String) (c : ChatChoice)
    (cs : List ChatChoice) (b : ClaudeBlock) (bs : List ClaudeBlock) :
    query_chatgpt m (PyOutcome.ok ⟨c :: cs⟩) = pyStrip c.message.content
    ∧ query_deepseek (PyOutcome.ok ⟨c :: cs⟩) = PyOutcome.ok c.message.content
    ∧ query_claude m (PyOutcome.ok ⟨b :: bs⟩) = b.text :=
  ⟨rfl, rfl, rfl⟩

/-- Witness for C8 amended, at a concrete response carrying `" hi "`. -/
theorem provider_clients_first_completion_witness :
    query_chatgpt "gpt-4o" (PyOutcome.ok ⟨[⟨⟨" hi "⟩⟩]⟩) = pyStrip " hi "
    ∧ query_deepseek (PyOutcome.ok ⟨[⟨⟨" hi "⟩⟩]⟩) = PyOutcome.ok " hi "
    ∧ query_claude "claude-3-haiku-20240307" (PyOutcome.ok ⟨[⟨" hi "⟩]⟩) = " hi " :=
  provider_clients_first_completion "gpt-4o" ⟨⟨" hi "⟩⟩ [] ⟨" hi "⟩ []

/-- C9: every store mutator is frame-exact — applied to user `u` it leaves
every observable of any other user `v` unchanged, and it changes only its
own field for `u`: `set_model` leaves `u`'s provider and state, and
symmetrically for `set_provider`, `set_state` and `reset_state`. -/
theorem store_mutator_frame (d : UserData) (u v : Nat) (m p s : String) (huv : u ≠ v) :
    ((d.set_model u m).get_model v = d.get_model v
      ∧ (d.set_model u m).get_provider v = d.get_provider v
      ∧ (d.set_model u m).get_state v = d.get_state v)
    ∧ ((d.set_provider u p).get_model v = d.get_model v
      ∧ (d.set_provider u p).get_provider v = d.get_provider v
      ∧ (d.set_provider u p).get_state v = d.get_state v)
    ∧ ((d.set_state u s).get_model v = d.get_model v
      ∧ (d.set_state u s).get_provider v = d.get_provider v
      ∧ (d.set_state u s).get_state v = d.get_state v)
    ∧ ((d.reset_state u).get_model v = d.get_model v
      ∧ (d.reset_state u).get_provider v = d.get_provider v
      ∧ (d.reset_state u).get_state v = d.get_state v)
    ∧ ((d.set_model u m).get_provider u = d.get_provider u
      ∧ (d.set_model u m).get_state u = d.get_state u)
    ∧ ((d.set_provider u p).get_model u = d.get_model u
      ∧ (d.set_provider u p).get_state u = d.get_state u)
    ∧ ((d.set_state u s).get_model u = d.get_model u
      ∧ (d.set_state u s).get_provider u = d.get_provider u)
    ∧ ((d.reset_state u).get_model u = d.get_model u
      ∧ (d.reset_state u).get_provider u = d.get_provider u) := by
  have hvu : ¬(v = u) := fun hh => huv hh.symm
  cases hst : d.states u <;>
    simp [UserData.get_model, UserData.get_provider, UserData.get_state,
      UserData.set_model, UserData.set_provider, UserData.set_state,
      UserData.reset_state, hst, hvu]

/-- Witness for C9, on the empty store with users 1 and 2. -/
theorem store_mutator_frame_witness :
    let d := UserData.init
    ((d.set_model 1 "m").get_model 2 = d.get_model 2
      ∧ (d.set_model 1 "m").get_provider 2 = d.get_provider 2
      ∧ (d.set_model 1 "m").get_state 2 = d.get_state 2)
    ∧ ((d.set_provider 1 "p").get_model 2 = d.get_model 2
      ∧ (d.set_provider 1 "p").get_provider 2 = d.get_provider 2
      ∧ (d.set_provider 1 "p").get_state 2 = d.get_state 2)
    ∧ ((d.set_state 1 "s").get_model 2 = d.get_model 2
      ∧ (d.set_state 1 "s").get_provider 2 = d.get_provider 2
      ∧ (d.set_state 1 "s").get_state 2 = d.get_state 2)
    ∧ ((d.reset_state 1).get_model 2 = d.get_model 2
      ∧ (d.reset_state 1).get_provider 2 = d.get_provider 2
      ∧ (d.reset_state 1).get_state 2 = d.get_state 2)
    ∧ ((d.set_model 1 "m").get_provider 1 = d.get_provider 1
      ∧ (d.set_model 1 "m").get_state 1 = d.get_state 1)
    ∧ ((d.set_provider 1 "p").get_model 1 = d.get_model 1
      ∧ (d.set_provider 1 "p").get_state 1 = d.get_state 1)
    ∧ ((d.set_state 1 "s").get_model 1 = d.get_model 1
      ∧ (d.set_state 1 "s").get_provider 1 = d.get_provider 1)
    ∧ ((d.reset_state 1).get_model 1 = d.get_model 1
      ∧ (d.reset_state 1).get_provider 1 = d.get_provider 1) :=
  store_mutator_frame UserData.init 1 2 "m" "p" "s" (by decide)

/-- C10: a reply whose length is exactly 4096 is delivered as a single
message, and the dispatcher produces more than one chunk only when the
reply's length strictly exceeds 4096. -/
theorem chunk_single_message_iff :
    (∀ s : String, s.length = 4096 → chunkMessage s = [s])
    ∧ ∀ s : String, 1 < (chunkMessage s).length → 4096 < s.length := by
  constructor
  · intro s h
    unfold chunkMessage
    rw [if_neg (by omega)]
  · intro s h
    by_contra hle
    push_neg at hle
    rw [show chunkMessage s = [s] from by unfold chunkMessage; rw [if_neg (by omega)]] at h
    simp at h

/-- Witness for C10: a 4096-character reply is one chunk; a 4097-character
reply has more than one chunk and length above 4096. -/
theorem chunk_single_message_iff_witness :
    (String.mk (List.replicate 4096 'a')).length = 4096
    ∧ chunkMessage (String.mk (List.replicate 4096 'a')) = [String.mk (List.replicate 4096 'a')]
    ∧ 4096 < (String.mk (List.replicate 4097 'a')).length := by
  have h96 : (String.mk (List.replicate 4096 'a')).length = 4096 := by
    show (List.replicate 4096 'a').length = 4096
    rw [List.length_replicate]
  have h97 : (String.mk (List.replicate 4097 'a')).length = 4097 := by
    show (List.replicate 4097 'a').length = 4097
    rw [List.length_replicate]
  have hml := chunkMessage_map_length (String.mk (List.replicate 4097 'a')) (by rw [h97]; omega)
  have hcount : 1 < (chunkMessage (String.mk (List.replicate 4097 'a'))).length := by
    have hlm := congrArg List.length hml
    rw [List.length_map] at hlm
    rw [hlm, h97]
    decide
  exact ⟨h96, chunk_single_message_iff.1 _ h96, chunk_single_message_iff.2 _ hcount⟩

end SlackerBot
